import Mathlib

/-!
Shallow embedding of the `peeker` system-information utility.

The repository has three Go source files sharing one data model:
* `main.go` — console mode: prints host, CPU, memory and disk information
  as plain text lines (namespace `Console` below);
* `unnamed/part_000` — styled status-bar mode whose per-category display
  functions guard against absent records and whose terminal width is a
  package-level variable captured at program load (namespace `Bar`);
* `unnamed/part_001` — an older styled status-bar variant whose `Render`
  dereferences the host/disk/memory records unconditionally and queries
  the terminal width inside `Render` (namespace `BarOld`).

Machine integers (Go `uint64`) are modelled as `Nat` with explicit
`% 2 ^ 64` where Go wrap-around matters (`sub64`).  Go `float64` values
that only flow into `strconv.FormatFloat`/`fmt` with fixed precision are
modelled as `ℚ`, and the fixed-precision formatting (round to nearest,
ties to even, which is what Go's formatting performs on the exact value)
is modelled by `roundHalfEven`/`formatF2`/`formatF0w2`.
-/

namespace Peeker

/-- Go constant `megabyteDiv uint64 = 1024 * 1024` (identical in all three files). -/
def megabyteDiv : Nat := 1024 * 1024

/-- Go constant `gigabyteDiv uint64 = megabyteDiv * 1024`. -/
def gigabyteDiv : Nat := megabyteDiv * 1024

/-- The modulus of Go's `uint64` arithmetic. -/
def U64 : Nat := 2 ^ 64

/-- Go `uint64` subtraction `x - y`: wraps modulo `2 ^ 64`. -/
def sub64 (x y : Nat) : Nat := (x % U64 + (U64 - y % U64)) % U64

/-- Round a rational to the nearest integer, ties to even: the rounding Go's
`strconv.FormatFloat`/`fmt` perform when formatting with fixed precision. -/
def roundHalfEven (q : ℚ) : ℤ :=
  if q - ⌊q⌋ < 1 / 2 then ⌊q⌋
  else if (1 : ℚ) / 2 < q - ⌊q⌋ then ⌊q⌋ + 1
  else if ⌊q⌋ % 2 = 0 then ⌊q⌋ else ⌊q⌋ + 1

/-- Model of Go `strconv.FormatFloat(x, 'f', 2, 64)`: fixed two decimal places. -/
def formatF2 (q : ℚ) : String :=
  let n := roundHalfEven (q * 100)
  let m := n.natAbs
  let frac := m % 100
  (if n < 0 then "-" else "")
    ++ toString (m / 100) ++ "." ++ (if frac < 10 then "0" else "") ++ toString frac

/-- Model of Go `fmt` verb `%2.f`: precision 0 (nearest integer), minimum
width 2, space-padded on the left. -/
def formatF0w2 (q : ℚ) : String :=
  let n := roundHalfEven q
  let s := (if n < 0 then "-" else "") ++ toString n.natAbs
  if s.length < 2 then " " ++ s else s

/-- Uppercase the first character of a word, lowercase the rest
(model of one word under `golang.org/x/text/cases.Title`). -/
def capitalizeWord (s : String) : String :=
  match s.data with
  | [] => ""
  | c :: cs => String.mk (c.toUpper :: cs.map Char.toLower)

/-- A single space, used as the word separator of `cases.Title`. -/
def spaceStr : String := " "

/-- Model of `cases.Title(language.AmericanEnglish).String`: title-case every
space-separated word. -/
def titleCase (s : String) : String :=
  String.intercalate spaceStr ((s.split (fun c => c = ' ')).map capitalizeWord)

/-- Fields of `gopsutil`'s `host.InfoStat` that the program reads. -/
structure InfoStat where
  Hostname : String
  Platform : String
  PlatformVersion : String
  KernelArch : String
deriving DecidableEq

/-- Fields of `gopsutil`'s `cpu.InfoStat` that the program reads. -/
structure CPUInfoStat where
  ModelName : String
  Family : String
  Mhz : ℚ
deriving DecidableEq

/-- Fields of `gopsutil`'s `mem.VirtualMemoryStat` that the program reads
(byte counts are Go `uint64`). -/
structure VirtualMemoryStat where
  Total : Nat
  Available : Nat
  UsedPercent : ℚ
deriving DecidableEq

/-- Fields of `gopsutil`'s `disk.UsageStat` that the program reads. -/
structure UsageStat where
  Total : Nat
  Used : Nat
  Free : Nat
  UsedPercent : ℚ
deriving DecidableEq

/-- Go struct `StatusBar` (identical in `part_000` and `part_001`): a nil
pointer is `none`, a nil/empty slice is `[]`. -/
structure StatusBar where
  cpu : List CPUInfoStat
  disk : Option UsageStat
  host : Option InfoStat
  mem : Option VirtualMemoryStat
deriving DecidableEq

/-- Go `NewStatusBar()`: all four categories at their zero values. -/
def NewStatusBar : StatusBar := ⟨[], none, none, none⟩

/-- Go `(*StatusBar).WithHostInformation`: a failed query leaves the field
untouched and drops the error. The query result is passed explicitly. -/
def WithHostInformation (sb : StatusBar) (res : Except String InfoStat) : StatusBar :=
  match res with
  | .ok host => { sb with host := some host }
  | .error _ => sb

/-- Go `(*StatusBar).WithCPUInformation`. -/
def WithCPUInformation (sb : StatusBar) (res : Except String (List CPUInfoStat)) : StatusBar :=
  match res with
  | .ok cpu => { sb with cpu := cpu }
  | .error _ => sb

/-- Go `(*StatusBar).WithMemoryInformation`. -/
def WithMemoryInformation (sb : StatusBar) (res : Except String VirtualMemoryStat) : StatusBar :=
  match res with
  | .ok mem => { sb with mem := some mem }
  | .error _ => sb

/-- Go `(*StatusBar).WithDiskInformation`. -/
def WithDiskInformation (sb : StatusBar) (res : Except String UsageStat) : StatusBar :=
  match res with
  | .ok disk => { sb with disk := some disk }
  | .error _ => sb

/-- The aggregation chain of both status-bar variants' `main`:
`NewStatusBar().WithHostInformation().WithCPUInformation().WithMemoryInformation().WithDiskInformation()`. -/
def buildStatusBar (hres : Except String InfoStat) (cres : Except String (List CPUInfoStat))
    (mres : Except String VirtualMemoryStat) (dres : Except String UsageStat) : StatusBar :=
  WithDiskInformation (WithMemoryInformation (WithCPUInformation (WithHostInformation NewStatusBar hres) cres) mres) dres

namespace Console

/-- One `Printf("\tCPU [%v]: %v %%\n", ...)` line of `DisplayCPUPercentage`
(`main.go`), at printed index `idx`. -/
def cpuLine (idx : Nat) (cpupercent : ℚ) : String :=
  "\tCPU [" ++ toString idx ++ "]: " ++ formatF2 cpupercent ++ " %"

/-- One `for idx, cpupercent := range list` loop of `DisplayCPUPercentage`,
printing index `off + idx` (the first loop runs with `off = 0`, the second
with `off = len(firstCpus)`). -/
def cpuLoop (off : Nat) : List ℚ → List String
  | [] => []
  | p :: ps => cpuLine off p :: cpuLoop (off + 1) ps

/-- Go `DisplayCPUPercentage` (`main.go` lines 65-78): splits the per-core
list at `len/2`, prints a `Cores:` header, then the two loops. -/
def DisplayCPUPercentage (percentage : List ℚ) : List String :=
  let firstCpus := percentage.take (percentage.length / 2)
  let secondCpus := percentage.drop (percentage.length / 2)
  let oftset := firstCpus.length
  "Cores:" :: (cpuLoop 0 firstCpus ++ cpuLoop oftset secondCpus)

/-- Go `DisplayHostMemory` (`main.go`): the three `fmt.Println` lines. -/
def DisplayHostMemory (vmStat : VirtualMemoryStat) : List String :=
  ["Total memory: " ++ toString (vmStat.Total / megabyteDiv) ++ " MB",
   "Free memory: " ++ toString (vmStat.Available / megabyteDiv) ++ " MB",
   "Percentage used memory: " ++ formatF2 vmStat.UsedPercent ++ " %"]

/-- Go `DisplayHostInformation` (`main.go`): the two `fmt.Printf` lines. -/
def DisplayHostInformation (hostStat : InfoStat) : List String :=
  ["Hostname: " ++ hostStat.Hostname,
   "Operating System: " ++ hostStat.Platform ++ " " ++ hostStat.PlatformVersion
     ++ " (" ++ hostStat.KernelArch ++ ")"]

/-- Go `DisplayDiskInformation` (`main.go`): the four `fmt.Printf` lines. -/
def DisplayDiskInformation (diskStat : UsageStat) : List String :=
  ["Total disk space: " ++ toString (diskStat.Total / gigabyteDiv) ++ " GB",
   "Used disk space: " ++ toString (diskStat.Used / gigabyteDiv) ++ " GB",
   "Free disk space: " ++ toString (diskStat.Free / gigabyteDiv) ++ " GB",
   "Percentage disk space usage: " ++ formatF2 diskStat.UsedPercent ++ " %"]

/-- Go `DisplayCPUStat` (`main.go`): one line when the list is non-empty,
nothing otherwise (the three `Printf` calls end in a single `\n`). -/
def DisplayCPUStat (cpuStat : List CPUInfoStat) : List String :=
  match cpuStat with
  | [] => []
  | c :: _ =>
    ["Model Name: " ++ c.ModelName ++ " " ++ "Family: " ++ c.Family ++ " "
      ++ "Speed: " ++ formatF2 c.Mhz ++ " MHz"]

/-- One `if x, err := GetX(); err == nil { DisplayX(x) }` block of
`main.go`'s `main`: a failed query contributes no lines, its error is
dropped. -/
def linesOf {α : Type} (f : α → List String) (res : Except String α) : List String :=
  match res with
  | .ok a => f a
  | .error _ => []

/-- Go `main` (`main.go` lines 108-127): the five guarded display blocks in
order, applied to the five query results; the output is the printed lines.
The function is total: the program always completes and exits 0. -/
def main (hres : Except String InfoStat) (cres : Except String (List CPUInfoStat))
    (mres : Except String VirtualMemoryStat) (dres : Except String UsageStat)
    (pres : Except String (List ℚ)) : List String :=
  linesOf DisplayHostInformation hres
    ++ linesOf DisplayCPUStat cres
    ++ linesOf DisplayHostMemory mres
    ++ linesOf DisplayDiskInformation dres
    ++ linesOf DisplayCPUPercentage pres

end Console

/-- Layout-relevant attributes of a `lipgloss` style (colors and boldness do
not affect widths and are not modelled). -/
structure Style where
  paddingLeft : Nat
  paddingRight : Nat
  marginLeft : Nat
  marginRight : Nat
deriving DecidableEq

/-- A rendered status-bar cell: its text content and its rendered width
(`lipgloss.Width` of the rendered string, which includes padding and
margins; single-line ASCII text, so the text's width is its length). -/
structure Cell where
  text : String
  width : Int
deriving DecidableEq

/-- Model of `style.Render(text)` for a style without an explicit width:
the rendered width is the text width plus padding plus margins. -/
def renderCell (st : Style) (text : String) : Cell :=
  ⟨text, (text.length : Int) + st.paddingLeft + st.paddingRight + st.marginLeft + st.marginRight⟩

/-- Model of `style.Width(w).Render(text)`: `lipgloss` treats `w` as the
minimum width of the padded block (content grows the cell beyond it), and
margins are added outside. -/
def renderCellWidth (st : Style) (w : Int) (text : String) : Cell :=
  ⟨text, max w ((text.length : Int) + st.paddingLeft + st.paddingRight) + st.marginLeft + st.marginRight⟩

/-- `statusBarStyle`: colors only, no padding or margin. -/
def statusBarStyle : Style := ⟨0, 0, 0, 0⟩

/-- `diskStyle`: `Padding(0, 1)` on the base style. -/
def diskStyle : Style := ⟨1, 1, 0, 0⟩

/-- `memoryStyle`: `Padding(0, 1)` on the base style. -/
def memoryStyle : Style := ⟨1, 1, 0, 0⟩

/-- `highlightLeftStyle`: `Padding(0, 1)` and `MarginRight(1)`. -/
def highlightLeftStyle : Style := ⟨1, 1, 0, 1⟩

/-- `highlightRightStyle`: `Padding(0, 1)` and `MarginLeft(1)`. -/
def highlightRightStyle : Style := ⟨1, 1, 1, 0⟩

/-- `generalTextStyle`: colors and bold only. -/
def generalTextStyle : Style := ⟨0, 0, 0, 0⟩

/-- The terminal widths visible to the program: `widthAtLoad` is what
`term.GetSize` returned when the package variables were initialised,
`widthAtRender` what it returns while `Render` runs.  They differ when the
terminal is resized between program load and render. -/
structure TermEnv where
  widthAtLoad : Int
  widthAtRender : Int
deriving DecidableEq

/-- The Go `memoryTotal` variable of the status-bar memory code: zero when
the memory record is absent, `sb.mem.Total / megabyteDiv` otherwise. -/
def memoryTotalMB (mem : Option VirtualMemoryStat) : Nat :=
  match mem with
  | some m => m.Total / megabyteDiv
  | none => 0

/-- The Go `memoryAvailable` variable of the status-bar memory code. -/
def memoryAvailableMB (mem : Option VirtualMemoryStat) : Nat :=
  match mem with
  | some m => m.Available / megabyteDiv
  | none => 0

/-- The Go `memoryInUse` variable: `memoryTotal - memoryAvailable` in
`uint64` arithmetic (wraps modulo `2 ^ 64`; zero when the record is absent,
matching the unassigned Go variable). -/
def memoryInUseMB (mem : Option VirtualMemoryStat) : Nat :=
  sub64 (memoryTotalMB mem) (memoryAvailableMB mem)

/-- The Go `memoryUsedPercentenge` variable. -/
def memoryUsedPercentVal (mem : Option VirtualMemoryStat) : ℚ :=
  match mem with
  | some m => m.UsedPercent
  | none => 0

/-- The Go `diskTotal` variable of the status-bar disk code. -/
def diskTotalGB (disk : Option UsageStat) : Nat :=
  match disk with
  | some d => d.Total / gigabyteDiv
  | none => 0

/-- The Go `diskUsed` variable of the status-bar disk code. -/
def diskUsedGB (disk : Option UsageStat) : Nat :=
  match disk with
  | some d => d.Used / gigabyteDiv
  | none => 0

/-- The Go `diskUsedPercent` variable of the status-bar disk code. -/
def diskUsedPercentVal (disk : Option UsageStat) : ℚ :=
  match disk with
  | some d => d.UsedPercent
  | none => 0

/-- The `cpuInformation` string shared by both status-bar variants: empty
when the CPU list is empty, `"{model} {mhz 2 decimals} MHz"` otherwise. -/
def cpuInformationText (cpu : List CPUInfoStat) : String :=
  match cpu with
  | [] => ""
  | c :: _ => c.ModelName ++ " " ++ formatF2 c.Mhz ++ " MHz"

/-- The result of one status-bar `Render`: the five styled cells, plus the
two width arguments that were handed to the width-taking styles.  The final
joining of cells into two lines is the external renderer's job and adds no
information beyond the cells. -/
structure RenderResult where
  platformCell : Cell
  hostCell : Cell
  cpuCell : Cell
  memoryCell : Cell
  diskCell : Cell
  hostWidthArg : Int
  memWidthArg : Int
deriving DecidableEq

namespace Bar

/-- Go `DisplayHostMemory` of `part_000` (lines 67-86): the guard
`if sb.mem != nil` is inside the `memory...MB` helpers; the text is
`fmt.Sprintf("Memory: %d of %d MB used (%2.f%%)", ...)` rendered by
`memoryStyle.Width(width)`. -/
def DisplayHostMemory (sb : StatusBar) (width : Int) : Cell :=
  let memoryInformation :=
    "Memory: " ++ toString (memoryInUseMB sb.mem) ++ " of " ++ toString (memoryTotalMB sb.mem)
      ++ " MB used (" ++ formatF0w2 (memoryUsedPercentVal sb.mem) ++ "%)"
  renderCellWidth memoryStyle width memoryInformation

/-- Go `DisplayHostInformation` of `part_000` (lines 97-112): hostname and
kernel architecture, empty strings when the host record is absent, rendered
centered by `generalTextStyle.Width(width)`. -/
def DisplayHostInformation (sb : StatusBar) (width : Int) : Cell :=
  let hostName := match sb.host with | some h => h.Hostname | none => ""
  let hostArch := match sb.host with | some h => h.KernelArch | none => ""
  renderCellWidth generalTextStyle width (hostName ++ " " ++ hostArch)

/-- Go `DisplayPlatformInformation` of `part_000` (lines 114-127):
title-cased platform name plus version, empty when absent, rendered by
`highlightLeftStyle`. -/
def DisplayPlatformInformation (sb : StatusBar) : Cell :=
  let platformName := match sb.host with | some h => titleCase h.Platform | none => ""
  let platformVersion := match sb.host with | some h => h.PlatformVersion | none => ""
  renderCell highlightLeftStyle (platformName ++ " " ++ platformVersion)

/-- Go `DisplayDiskInformation` of `part_000` (lines 138-153): the
`Disk: %d of %d GB used (%2.f%%)` text rendered by `diskStyle`. -/
def DisplayDiskInformation (sb : StatusBar) : Cell :=
  let diskInformation :=
    "Disk: " ++ toString (diskUsedGB sb.disk) ++ " of " ++ toString (diskTotalGB sb.disk)
      ++ " GB used (" ++ formatF0w2 (diskUsedPercentVal sb.disk) ++ "%)"
  renderCell diskStyle (diskInformation)

/-- Go `DisplayCPUInformation` of `part_000` (lines 189-198). -/
def DisplayCPUInformation (sb : StatusBar) : Cell :=
  renderCell highlightRightStyle (cpuInformationText sb.cpu)

/-- Go `StatusBar.Render` of `part_000` (lines 255-288).  The terminal
width it uses is the package-level `terminalWidth` variable, initialised at
program load — hence `env.widthAtLoad`.  Every category is reached through
a nil-guarded display function, so the function is total. -/
def Render (sb : StatusBar) (env : TermEnv) : RenderResult :=
  let platformCell := DisplayPlatformInformation sb
  let cpuCell := DisplayCPUInformation sb
  let hostWidthArg := env.widthAtLoad - platformCell.width - cpuCell.width
  let hostCell := DisplayHostInformation sb hostWidthArg
  let diskCell := DisplayDiskInformation sb
  let memWidthArg := env.widthAtLoad - diskCell.width
  let memoryCell := DisplayHostMemory sb memWidthArg
  ⟨platformCell, hostCell, cpuCell, memoryCell, diskCell, hostWidthArg, memWidthArg⟩

end Bar

namespace BarOld

/-- The `platformCell` of `part_001`'s `Render` (lines 203-206, 220),
computed from a present host record. -/
def platformCell (host : InfoStat) : Cell :=
  renderCell highlightLeftStyle (titleCase host.Platform ++ " " ++ host.PlatformVersion)

/-- The `cpuCell` of `part_001`'s `Render` (lines 214-218, 221). -/
def cpuCell (cpu : List CPUInfoStat) : Cell :=
  renderCell highlightRightStyle (cpuInformationText cpu)

/-- The `diskCell` of `part_001`'s `Render` (lines 233-238); note the text
`Disk: %d of %d used (%2.f %%)` — no `GB` and a space before the percent
sign, unlike `part_000`. -/
def diskCell (disk : UsageStat) : Cell :=
  let diskInformation :=
    "Disk: " ++ toString (disk.Used / gigabyteDiv) ++ " of " ++ toString (disk.Total / gigabyteDiv)
      ++ " used (" ++ formatF0w2 disk.UsedPercent ++ " %)"
  renderCell diskStyle diskInformation

/-- Go `StatusBar.Render` of `part_001` (lines 198-261).  It queries the
terminal width at render time (`env.widthAtRender`) but dereferences
`sb.host`, `sb.disk` and `sb.mem` without nil checks: when any of the three
records is absent the Go program panics with a nil-pointer dereference and
`Render` never completes, modelled here by `none`. -/
def Render (sb : StatusBar) (env : TermEnv) : Option RenderResult :=
  match sb.host, sb.disk, sb.mem with
  | some host, some disk, some mem =>
    let terminalWidth := env.widthAtRender
    let hostInformation := host.Hostname ++ " " ++ host.KernelArch
    let pCell := platformCell host
    let cCell := cpuCell sb.cpu
    let hostWidthArg := terminalWidth - pCell.width - cCell.width
    let hostVal := renderCellWidth generalTextStyle hostWidthArg hostInformation
    let dCell := diskCell disk
    let memoryTotal := mem.Total / megabyteDiv
    let memoryAvailable := mem.Available / megabyteDiv
    let memoryInUse := sub64 memoryTotal memoryAvailable
    let memoryInformation :=
      "Memory used: " ++ toString memoryInUse ++ " of " ++ toString memoryTotal
        ++ " MB (" ++ formatF0w2 mem.UsedPercent ++ "% used)"
    let memWidthArg := terminalWidth - dCell.width
    let memoryCell := renderCellWidth memoryStyle memWidthArg memoryInformation
    some ⟨pCell, hostVal, cCell, memoryCell, dCell, hostWidthArg, memWidthArg⟩
  | _, _, _ => none

end BarOld

/-! Helper lemmas about the arithmetic and loop models. -/

/-- Go `uint64` subtraction agrees with truncated subtraction when no
underflow occurs. -/
theorem sub64_eq_of_le (x y : Nat) (hy : y ≤ x) (hx : x < U64) : sub64 x y = x - y := by
  have hU : U64 = 18446744073709551616 := by norm_num [U64]
  rw [hU] at hx
  simp only [sub64, hU]
  omega

/-- Go `uint64` subtraction wraps modulo `2 ^ 64` on underflow. -/
theorem sub64_eq_of_lt (x y : Nat) (hyU : y < U64) (h : x < y) :
    sub64 x y = U64 - (y - x) := by
  have hU : U64 = 18446744073709551616 := by norm_num [U64]
  rw [hU] at hyU
  simp only [sub64, hU]
  omega

/-- Running the display loop over a concatenation splits into two loops,
the second one offset by the length of the first list. -/
theorem cpuLoop_append (off : Nat) (xs ys : List ℚ) :
    Console.cpuLoop off (xs ++ ys) = Console.cpuLoop off xs ++ Console.cpuLoop (off + xs.length) ys := by
  induction xs generalizing off with
  | nil => simp [Console.cpuLoop]
  | cons p ps ih =>
    have harg : off + 1 + ps.length = off + (ps.length + 1) := by omega
    simp [Console.cpuLoop, ih (off + 1), harg]

/-- The display loop pairs each element with consecutive indices starting
at the offset. -/
theorem cpuLoop_eq_zipWith (off : Nat) (l : List ℚ) :
    Console.cpuLoop off l = List.zipWith Console.cpuLine (List.range' off l.length) l := by
  induction l generalizing off with
  | nil => simp [Console.cpuLoop]
  | cons p ps ih => simp [Console.cpuLoop, List.range'_succ, ih (off + 1)]

/-- Round-to-nearest-ties-to-even lands within half a unit of its input:
it rounds, it never truncates. -/
theorem roundHalfEven_close (q : ℚ) : |(roundHalfEven q : ℚ) - q| ≤ 1 / 2 := by
  have h1 : (⌊q⌋ : ℚ) ≤ q := Int.floor_le q
  have h2 : q < ⌊q⌋ + 1 := Int.lt_floor_add_one q
  unfold roundHalfEven
  split_ifs with ha hb hc
  all_goals rw [abs_le]; push_cast; constructor <;> linarith

/-- The value displayed with two decimal places is within `1/200` of the
formatted value. -/
theorem roundHalfEven_mul_close (q : ℚ) :
    |(roundHalfEven (q * 100) : ℚ) / 100 - q| ≤ 1 / 200 := by
  have h := roundHalfEven_close (q * 100)
  have h100 : (0 : ℚ) < 100 := by norm_num
  rw [show (roundHalfEven (q * 100) : ℚ) / 100 - q
        = ((roundHalfEven (q * 100) : ℚ) - q * 100) / 100 by ring,
      abs_div, abs_of_pos h100, div_le_iff₀ h100]
  linarith

/-- Formatting `0` with the `%2.f` verb yields a space-padded `" 0"`. -/
theorem formatF0w2_zero : formatF0w2 0 = " 0" := by
  have h : roundHalfEven (0 : ℚ) = 0 := by norm_num [roundHalfEven]
  rw [formatF0w2, h]
  rfl

/-- Concrete evaluation of the two-decimal format at 75. -/
theorem formatF2_75 : formatF2 75 = "75.00" := by
  have h : roundHalfEven ((75 : ℚ) * 100) = 7500 := by norm_num [roundHalfEven]
  rw [formatF2, h]
  rfl

/-- Concrete evaluation of the two-decimal format at 50. -/
theorem formatF2_50 : formatF2 50 = "50.00" := by
  have h : roundHalfEven ((50 : ℚ) * 100) = 5000 := by norm_num [roundHalfEven]
  rw [formatF2, h]
  rfl

/-- Concrete evaluation of the two-decimal format at 3200. -/
theorem formatF2_3200 : formatF2 3200 = "3200.00" := by
  have h : roundHalfEven ((3200 : ℚ) * 100) = 320000 := by norm_num [roundHalfEven]
  rw [formatF2, h]
  rfl

/-- Formatting 87.456 with two decimals rounds up to `"87.46"`
(truncation would give `"87.45"`). -/
theorem formatF2_87456 : formatF2 (87456 / 1000) = "87.46" := by
  have h : roundHalfEven ((87456 : ℚ) / 1000 * 100) = 8746 := by norm_num [roundHalfEven]
  rw [formatF2, h]
  rfl

/-- Formatting 87.456 with the `%2.f` verb yields `"87"`. -/
theorem formatF0w2_87456 : formatF0w2 (87456 / 1000) = "87" := by
  have h : roundHalfEven ((87456 : ℚ) / 1000) = 87 := by norm_num [roundHalfEven]
  rw [formatF0w2, h]
  rfl

/-! Theorems settling the claims. -/

/-- C1: `DisplayCPUPercentage` splits a length-`N` per-core list at the
floor midpoint — the first half has `N / 2` entries, the second
`N - N / 2` — and the printed lines pair the percentages, in original list
order, with exactly the contiguous strictly increasing indices
`0 .. N - 1` (the second loop's indices are offset by the first half's
length, which the `List.range` form makes contiguous with the first). -/
theorem c1_cpu_split (ps : List ℚ) :
    (ps.take (ps.length / 2)).length = ps.length / 2
  ∧ (ps.drop (ps.length / 2)).length = ps.length - ps.length / 2
  ∧ Console.DisplayCPUPercentage ps
      = "Cores:" :: List.zipWith Console.cpuLine (List.range ps.length) ps := by
  refine ⟨?_, ?_, ?_⟩
  · simp [List.length_take, Nat.min_eq_left (Nat.div_le_self _ _)]
  · simp [List.length_drop]
  · simp only [Console.DisplayCPUPercentage]
    have hsplit := cpuLoop_append 0 (ps.take (ps.length / 2)) (ps.drop (ps.length / 2))
    rw [List.take_append_drop, Nat.zero_add] at hsplit
    rw [← hsplit, cpuLoop_eq_zipWith, List.range_eq_range']

/-- C2, counterexample: the claim says the styled `Render` never
dereferences an absent record, but `part_001`'s `StatusBar.Render`
dereferences `sb.host`, `sb.disk` and `sb.mem` unconditionally: on the
empty snapshot (all four categories absent) it hits a nil-pointer
dereference and never completes, modelled by `none`. -/
theorem c2_render_crashes_on_absent :
    BarOld.Render NewStatusBar ⟨80, 80⟩ = none := rfl

/-- C2, amended: in the `part_000` variant every category is reached
through a nil-guarded display function, so `Render` is total and an absent
category's contributing text fields are empty strings (zero numbers): an
absent host makes the host and platform texts a lone space (two empty
fields joined by `" "`), an absent memory record renders
`Memory: 0 of 0 MB used ( 0%)`, an absent disk record renders
`Disk: 0 of 0 GB used ( 0%)`, and an empty CPU list renders an empty CPU
cell, while the layout arithmetic still runs; `part_001`'s `Render`,
however, crashes when host, memory, or disk is nil (see the
counterexample). -/
theorem c2_absent_categories_blank :
    (∀ cpu disk mem env, (Bar.Render ⟨cpu, disk, none, mem⟩ env).hostCell.text = " "
      ∧ (Bar.Render ⟨cpu, disk, none, mem⟩ env).platformCell.text = " ")
  ∧ (∀ cpu disk host env,
      (Bar.Render ⟨cpu, disk, host, none⟩ env).memoryCell.text = "Memory: 0 of 0 MB used ( 0%)")
  ∧ (∀ cpu host mem env,
      (Bar.Render ⟨cpu, none, host, mem⟩ env).diskCell.text = "Disk: 0 of 0 GB used ( 0%)")
  ∧ (∀ disk host mem env, (Bar.Render ⟨[], disk, host, mem⟩ env).cpuCell.text = "") := by
  refine ⟨fun cpu disk mem env => ⟨rfl, rfl⟩, ?_, ?_, fun disk host mem env => rfl⟩
  · intro cpu disk host env
    simp only [Bar.Render, Bar.DisplayHostMemory, renderCellWidth, memoryInUseMB,
      memoryTotalMB, memoryAvailableMB, memoryUsedPercentVal]
    rw [formatF0w2_zero]
    rfl
  · intro cpu host mem env
    simp only [Bar.Render, Bar.DisplayDiskInformation, renderCell, diskUsedGB,
      diskTotalGB, diskUsedPercentVal]
    rw [formatF0w2_zero]
    rfl

/-- C3: a failed provider query leaves the corresponding snapshot field at
its zero value and the error (whatever its message) is dropped; the
aggregation chain never aborts and the other categories are unaffected, as
the all-failed, all-succeeded and single-failure aggregates show; the
console `main` likewise completes and prints nothing for a failed category
and exactly its own lines for a successful one, each category's lines
depending only on that category's query result. -/
theorem c3_error_isolation :
    (∀ sb e, WithHostInformation sb (.error e) = sb)
  ∧ (∀ sb e, WithCPUInformation sb (.error e) = sb)
  ∧ (∀ sb e, WithMemoryInformation sb (.error e) = sb)
  ∧ (∀ sb e, WithDiskInformation sb (.error e) = sb)
  ∧ (∀ e1 e2 e3 e4, buildStatusBar (.error e1) (.error e2) (.error e3) (.error e4) = NewStatusBar)
  ∧ (∀ h c m d, buildStatusBar (.ok h) (.ok c) (.ok m) (.ok d) = ⟨c, some d, some h, some m⟩)
  ∧ (∀ e c m d, buildStatusBar (.error e) (.ok c) (.ok m) (.ok d) = ⟨c, some d, none, some m⟩)
  ∧ (∀ h e m d, buildStatusBar (.ok h) (.error e) (.ok m) (.ok d) = ⟨[], some d, some h, some m⟩)
  ∧ (∀ h c e d, buildStatusBar (.ok h) (.ok c) (.error e) (.ok d) = ⟨c, some d, some h, none⟩)
  ∧ (∀ h c m e, buildStatusBar (.ok h) (.ok c) (.ok m) (.error e) = ⟨c, none, some h, some m⟩)
  ∧ (∀ e1 e2 e3 e4 e5, Console.main (.error e1) (.error e2) (.error e3) (.error e4) (.error e5) = [])
  ∧ (∀ hres cres mres dres pres,
      Console.main hres cres mres dres pres
        = Console.linesOf Console.DisplayHostInformation hres
          ++ Console.linesOf Console.DisplayCPUStat cres
          ++ Console.linesOf Console.DisplayHostMemory mres
          ++ Console.linesOf Console.DisplayDiskInformation dres
          ++ Console.linesOf Console.DisplayCPUPercentage pres) := by
  refine ⟨?_, ?_, ?_, ?_, ?_, ?_, ?_, ?_, ?_, ?_, ?_, ?_⟩ <;> intros <;> rfl

/-- C4: the megabyte divisor is 1048576 and the gigabyte divisor is
1073741824; memory byte counts are divided by the MB divisor and disk byte
counts by the GB divisor, with truncating `Nat` division (Go unsigned
integer division), in both console and bar modes; 1048575 bytes yield 0 MB
and 2097152 bytes yield 2 MB. -/
theorem c4_unit_conversion :
    megabyteDiv = 1048576
  ∧ gigabyteDiv = 1073741824
  ∧ (∀ v : VirtualMemoryStat, Console.DisplayHostMemory v
      = ["Total memory: " ++ toString (v.Total / 1048576) ++ " MB",
         "Free memory: " ++ toString (v.Available / 1048576) ++ " MB",
         "Percentage used memory: " ++ formatF2 v.UsedPercent ++ " %"])
  ∧ (∀ d : UsageStat, Console.DisplayDiskInformation d
      = ["Total disk space: " ++ toString (d.Total / 1073741824) ++ " GB",
         "Used disk space: " ++ toString (d.Used / 1073741824) ++ " GB",
         "Free disk space: " ++ toString (d.Free / 1073741824) ++ " GB",
         "Percentage disk space usage: " ++ formatF2 d.UsedPercent ++ " %"])
  ∧ (∀ m : VirtualMemoryStat, memoryTotalMB (some m) = m.Total / 1048576
      ∧ memoryAvailableMB (some m) = m.Available / 1048576)
  ∧ (∀ d : UsageStat, diskTotalGB (some d) = d.Total / 1073741824
      ∧ diskUsedGB (some d) = d.Used / 1073741824)
  ∧ (1048575 : Nat) / megabyteDiv = 0
  ∧ (2097152 : Nat) / megabyteDiv = 2 := by
  refine ⟨rfl, rfl, ?_, ?_, ?_, ?_, rfl, rfl⟩ <;> intros <;> first | exact ⟨rfl, rfl⟩ | rfl

/-- C5: in status-bar mode the displayed used-memory value is derived as
`total_MB - available_MB`, both operands already truncated to MB by the
1048576 divisor, with no independent rounding; it is this derived value,
not a provider figure, that appears in the rendered memory text. (The
hypotheses pin the Go `uint64` range and the non-underflowing case; the
underflow case is the subject of C10.) -/
theorem c5_used_memory_derived (m : VirtualMemoryStat) (ht : m.Total < 2 ^ 64)
    (hle : m.Available / megabyteDiv ≤ m.Total / megabyteDiv) :
    memoryInUseMB (some m) = m.Total / 1048576 - m.Available / 1048576
  ∧ (∀ cpu disk host width, (Bar.DisplayHostMemory ⟨cpu, disk, host, some m⟩ width).text
      = "Memory: " ++ toString (m.Total / 1048576 - m.Available / 1048576) ++ " of "
        ++ toString (m.Total / 1048576) ++ " MB used (" ++ formatF0w2 m.UsedPercent ++ "%)") := by
  have hx : memoryTotalMB (some m) < U64 :=
    lt_of_le_of_lt (Nat.div_le_self _ _) ht
  have hmain : memoryInUseMB (some m) = m.Total / 1048576 - m.Available / 1048576 :=
    sub64_eq_of_le _ _ hle hx
  refine ⟨hmain, ?_⟩
  intro cpu disk host width
  simp only [Bar.DisplayHostMemory, renderCellWidth, hmain]
  rfl

/-- C5 witness: the spec's example — total 8 GiB, available 2 GiB —
yields 8192 MB − 2048 MB = 6144 MB of used memory. -/
theorem c5_witness :
    memoryInUseMB (some ⟨8589934592, 2147483648, 75⟩) = 6144 :=
  ((c5_used_memory_derived ⟨8589934592, 2147483648, 75⟩ (by norm_num)
      (by norm_num [megabyteDiv])).1).trans (by norm_num)

/-- C6: on the spec's end-to-end snapshot the console program prints
exactly the ten expected lines (the disk record's free-bytes field, which
the scenario leaves implicit, is total − used = 53687091200, producing the
expected `Free disk space: 50 GB`; the per-core percentage query is the
one category the scenario leaves out, so it is a failed query and prints
nothing). -/
theorem c6_end_to_end (e5 : String) :
    Console.main (.ok ⟨"box1", "ubuntu", "22.04", "x86_64"⟩)
      (.ok [⟨"Gen9", "", 3200⟩])
      (.ok ⟨8589934592, 2147483648, 75⟩)
      (.ok ⟨107374182400, 53687091200, 53687091200, 50⟩)
      (.error e5)
    = ["Hostname: box1",
       "Operating System: ubuntu 22.04 (x86_64)",
       "Model Name: Gen9 Family:  Speed: 3200.00 MHz",
       "Total memory: 8192 MB",
       "Free memory: 2048 MB",
       "Percentage used memory: 75.00 %",
       "Total disk space: 100 GB",
       "Used disk space: 50 GB",
       "Free disk space: 50 GB",
       "Percentage disk space usage: 50.00 %"] := by
  simp only [Console.main, Console.linesOf, Console.DisplayHostInformation,
    Console.DisplayCPUStat, Console.DisplayHostMemory, Console.DisplayDiskInformation,
    formatF2_75, formatF2_50, formatF2_3200]
  rfl

/-- C7: every console percentage line uses the two-decimal format and
every status-bar percentage uses the zero-decimal (width 2) format; both
round to nearest rather than truncate — 87.456 renders as `"87.46"` in
console mode (truncation would give `"87.45"`) and as `"87"` in bar mode,
and in general the rounded value is within half a final-digit unit of the
true value. -/
theorem c7_percent_precision :
    (∀ v : VirtualMemoryStat, (Console.DisplayHostMemory v).getLast?
        = some ("Percentage used memory: " ++ formatF2 v.UsedPercent ++ " %"))
  ∧ (∀ d : UsageStat, (Console.DisplayDiskInformation d).getLast?
        = some ("Percentage disk space usage: " ++ formatF2 d.UsedPercent ++ " %"))
  ∧ (∀ sb : StatusBar, ∀ width : Int, (Bar.DisplayHostMemory sb width).text
        = "Memory: " ++ toString (memoryInUseMB sb.mem) ++ " of " ++ toString (memoryTotalMB sb.mem)
          ++ " MB used (" ++ formatF0w2 (memoryUsedPercentVal sb.mem) ++ "%)")
  ∧ (∀ sb : StatusBar, (Bar.DisplayDiskInformation sb).text
        = "Disk: " ++ toString (diskUsedGB sb.disk) ++ " of " ++ toString (diskTotalGB sb.disk)
          ++ " GB used (" ++ formatF0w2 (diskUsedPercentVal sb.disk) ++ "%)")
  ∧ formatF2 (87456 / 1000) = "87.46"
  ∧ formatF0w2 (87456 / 1000) = "87"
  ∧ (∀ q : ℚ, |(roundHalfEven (q * 100) : ℚ) / 100 - q| ≤ 1 / 200)
  ∧ (∀ q : ℚ, |(roundHalfEven q : ℚ) - q| ≤ 1 / 2) :=
  ⟨fun _ => rfl, fun _ => rfl, fun _ _ => rfl, fun _ => rfl,
   formatF2_87456, formatF0w2_87456, roundHalfEven_mul_close, roundHalfEven_close⟩

/-- C8: in both status-bar variants the centered host cell is given width
`terminalWidth − width(platformCell) − width(cpuCell)` and the
left-aligned memory cell is given width `terminalWidth − width(diskCell)`,
each width being the rendered width of the corresponding styled cell; no
floor at zero is applied — on a 5-column terminal both computed widths are
negative. -/
theorem c8_cell_widths :
    (∀ sb env, (Bar.Render sb env).hostWidthArg
        = env.widthAtLoad - (Bar.DisplayPlatformInformation sb).width
          - (Bar.DisplayCPUInformation sb).width)
  ∧ (∀ sb env, (Bar.Render sb env).memWidthArg
        = env.widthAtLoad - (Bar.DisplayDiskInformation sb).width)
  ∧ (∀ cpu h d m env,
      (BarOld.Render ⟨cpu, some d, some h, some m⟩ env).map (fun r => r.hostWidthArg)
        = some (env.widthAtRender - (BarOld.platformCell h).width - (BarOld.cpuCell cpu).width))
  ∧ (∀ cpu h d m env,
      (BarOld.Render ⟨cpu, some d, some h, some m⟩ env).map (fun r => r.memWidthArg)
        = some (env.widthAtRender - (BarOld.diskCell d).width))
  ∧ (Bar.Render NewStatusBar ⟨5, 5⟩).hostWidthArg = -2
  ∧ (Bar.Render NewStatusBar ⟨5, 5⟩).memWidthArg = -23 := by
  refine ⟨fun sb env => rfl, fun sb env => rfl, fun cpu h d m env => rfl,
    fun cpu h d m env => rfl, rfl, ?_⟩
  simp only [Bar.Render, Bar.DisplayDiskInformation, renderCell, diskUsedGB, diskTotalGB,
    diskUsedPercentVal, NewStatusBar]
  rw [formatF0w2_zero]
  rfl

/-- C9, counterexample: `part_000` reads the package-level terminal width
captured at program load, not the width at render time — with load width
80 and render-time width 120 its host-cell width argument is 73
(= 80 − 4 − 3), not the 113 the render-time width would give, so the
claim's "equals the terminal width at the moment Render runs" fails on
`part_000`. -/
theorem c9_cached_width_counterexample :
    (Bar.Render NewStatusBar ⟨80, 120⟩).hostWidthArg = 73
  ∧ (Bar.Render NewStatusBar ⟨120, 120⟩).hostWidthArg = 113
  ∧ ((Bar.Render NewStatusBar ⟨80, 120⟩).hostWidthArg
      == 120 - (Bar.DisplayPlatformInformation NewStatusBar).width
         - (Bar.DisplayCPUInformation NewStatusBar).width) = false :=
  ⟨rfl, rfl, rfl⟩

/-- C9, amended: `part_001`'s `Render` queries the terminal width at
render time — its layout arithmetic uses the moment-of-render width and
ignores the load-time width — while `part_000`'s `Render` uses the
package-level width captured at program load and ignores the render-time
width, so a resize between load and render is reflected only in
`part_001`'s output. -/
theorem c9_width_source :
    (∀ cpu h d m env,
      (BarOld.Render ⟨cpu, some d, some h, some m⟩ env).map (fun r => r.hostWidthArg)
        = some (env.widthAtRender - (BarOld.platformCell h).width - (BarOld.cpuCell cpu).width))
  ∧ (∀ sb env, (Bar.Render sb env).hostWidthArg
      = env.widthAtLoad - (Bar.DisplayPlatformInformation sb).width
        - (Bar.DisplayCPUInformation sb).width)
  ∧ (∀ sb wLoad w1 w2, Bar.Render sb ⟨wLoad, w1⟩ = Bar.Render sb ⟨wLoad, w2⟩)
  ∧ (∀ sb wRender w1 w2, BarOld.Render sb ⟨w1, wRender⟩ = BarOld.Render sb ⟨w2, wRender⟩) := by
  refine ⟨fun cpu h d m env => rfl, fun sb env => rfl, fun sb wLoad w1 w2 => rfl, ?_⟩
  intro sb wRender w1 w2
  cases sb with
  | mk cpu disk host mem =>
    cases host <;> cases disk <;> cases mem <;> rfl

/-- C10: when the memory record is present but its available-MB figure
exceeds its total-MB figure, the unguarded `uint64` subtraction wraps
modulo `2 ^ 64`: the derived used-memory value is
`2 ^ 64 − (available_MB − total_MB)`, which always exceeds `2 ^ 63` (an
astronomically large figure), and it is this wrapped value that the bar's
memory text displays. -/
theorem c10_underflow_wrap (m : VirtualMemoryStat) (ht : m.Total < 2 ^ 64)
    (ha : m.Available < 2 ^ 64)
    (hlt : m.Total / megabyteDiv < m.Available / megabyteDiv) :
    memoryInUseMB (some m) = 2 ^ 64 - (m.Available / 1048576 - m.Total / 1048576)
  ∧ 2 ^ 63 < memoryInUseMB (some m)
  ∧ (∀ cpu disk host width, (Bar.DisplayHostMemory ⟨cpu, disk, host, some m⟩ width).text
      = "Memory: " ++ toString (memoryInUseMB (some m)) ++ " of "
        ++ toString (m.Total / 1048576) ++ " MB used (" ++ formatF0w2 m.UsedPercent ++ "%)") := by
  have hy : memoryAvailableMB (some m) < U64 :=
    lt_of_le_of_lt (Nat.div_le_self _ _) ha
  have hmain : memoryInUseMB (some m) = 2 ^ 64 - (m.Available / 1048576 - m.Total / 1048576) :=
    sub64_eq_of_lt _ _ hy hlt
  refine ⟨hmain, ?_, ?_⟩
  · have h64 : (2 : Nat) ^ 64 = 18446744073709551616 := by norm_num
    have h63 : (2 : Nat) ^ 63 = 9223372036854775808 := by norm_num
    have ha2 : m.Available < 18446744073709551616 := by rw [h64] at ha; exact ha
    rw [hmain, h63, h64]
    omega
  · intro cpu disk host width
    simp only [Bar.DisplayHostMemory, renderCellWidth]
    rfl

/-- C10 witness: a memory record with 0 total bytes and 1 MiB available
wraps to `2 ^ 64 − 1` = 18446744073709551615 displayed megabytes. -/
theorem c10_witness :
    memoryInUseMB (some ⟨0, 1048576, 0⟩) = 18446744073709551615 :=
  ((c10_underflow_wrap ⟨0, 1048576, 0⟩ (by norm_num) (by norm_num)
      (by norm_num [megabyteDiv])).1).trans (by norm_num)

end Peeker
